import Mathlib

/-!
Shallow embedding of the compaction-guard plugin
(src/extensions/compaction-guard/index.ts).

Modelling conventions:
- A JavaScript value appearing as a message entry is modelled by `Val`:
  either a record with optional `role` and arbitrary `content`, or a
  non-object value (which the loop skips).
- Message `content` is modelled by `ContentV`: a plain string, an array of
  blocks, or any other shape.
- A content block is modelled by `BlockV`: either an object tagged
  `type = "text"` with a string `text` payload, or anything else.
- JavaScript string length and slicing are modelled on the character list
  of a Lean `String`; `toLowerCase` is modelled by mapping `Char.toLower`.
- Time (`Date.now()`, the ISO timestamp) is modelled as a `Nat` passed to
  the handlers; the timestamp is rendered with `toString`.
- The file system is modelled as the content of the single resolved
  context path: `Option String` (`none` = file absent). `fs` errors are
  out of the model: writes succeed, reads of an absent file yield `none`.
- The process-wide mutable `state`, the per-session `needsRecovery` set
  and the file slot together form `World`; each hook is a function from
  `World` (plus its event payload) to `World`, and `before_agent_start`
  additionally returns `Option String`, the `prependContext` payload
  (`none` = the hook returned `undefined`).
-/

namespace CompactionGuard

/-- A content block: the `text` variant carries the string payload of an
object with `type = "text"` and string `text`; every other value (a
non-object, or an object of another shape) is `otherBlock`. -/
inductive BlockV where
  | textBlock (t : String)
  | otherBlock
deriving DecidableEq

/-- The `content` field of a message: a plain string, an array of blocks,
or any other shape (including absent). -/
inductive ContentV where
  | str (s : String)
  | blocks (bs : List BlockV)
  | other
deriving DecidableEq

/-- One entry of the `messages` array: an object with an optional `role`
string and a `content` value, or a non-object entry. -/
inductive Val where
  | msg (role : Option String) (content : ContentV)
  | nonObj
deriving DecidableEq

/-- Boolean test for a contiguous occurrence of one character list inside
another, used to model the substring search of a JavaScript regular
expression. -/
def isSubList (p : List Char) : List Char → Bool
  | [] => p.isEmpty
  | c :: cs => p.isPrefixOf (c :: cs) || isSubList p cs

/-- Whether `p` occurs as a contiguous substring of `s`. -/
def isSubstring (p s : String) : Bool := isSubList p.data s.data

/-- JavaScript `String.prototype.toLowerCase`, modelled character-wise. -/
def toLowerCase (s : String) : String := ⟨s.data.map Char.toLower⟩

/-- The alternatives of the task-indicator regular expression
`/working on|creating|building|fixing|implementing|investigating/i`. -/
def taskIndicators : List String :=
  ["working on", "creating", "building", "fixing", "implementing", "investigating"]

/-- Case-insensitive test of the task-indicator pattern against `t`. -/
def hasTaskIndicator (t : String) : Bool :=
  taskIndicators.any fun p => isSubstring p (toLowerCase t)

/-- JavaScript `s.length > n ? s.slice(0, n) + "..." : s`, the truncation
used on included passages. -/
def truncateTo (n : Nat) (s : String) : String :=
  if n < s.length then s.take n ++ "..." else s

/-- The text payloads of the `text`-tagged blocks of an array, in order
(the `textParts` accumulator of `extractTextContent`). -/
def textPayloads (bs : List BlockV) : List String :=
  bs.filterMap fun b =>
    match b with
    | .textBlock t => some t
    | .otherBlock => none

/-- Model of `extractTextContent`: a plain string is returned unchanged; for an
array the payloads of text blocks are joined with newlines, and the JS
expression `textParts.join("\n") || null` turns an empty join into
`null`; any other shape gives `null`. -/
def extractTextContent : ContentV → Option String
  | .str s => some s
  | .blocks bs =>
      let j := String.intercalate "\n" (textPayloads bs)
      if j = "" then none else some j
  | .other => none

/-- The contribution of one message entry to `contextParts`: the loop body
of `extractTaskContext`. A non-object entry is skipped; a `user` message
with plain-string content yields a labelled passage truncated to 500
characters; an `assistant` message whose extracted text is non-empty and
matches the task-indicator pattern yields a labelled passage truncated to
300 characters; everything else is skipped. -/
def msgPart : Val → Option String
  | .nonObj => none
  | .msg role content =>
      if role = some "user" then
        match content with
        | .str s => some ("User: " ++ truncateTo 500 s)
        | _ => none
      else if role = some "assistant" then
        match extractTextContent content with
        | some t =>
            if t = "" then none
            else if hasTaskIndicator t then some ("Assistant: " ++ truncateTo 300 t)
            else none
        | none => none
      else none

/-- JavaScript `l.slice(-n)`: the final `n` elements (all of them when the
list is shorter). -/
def lastN (n : Nat) (l : List α) : List α := l.drop (l.length - n)

/-- The `contextParts` accumulated by `extractTaskContext` over the most
recent 20 messages. -/
def contextParts (msgs : List Val) : List String :=
  (lastN 20 msgs).filterMap msgPart

/-- Model of `extractTaskContext`: `null` for an empty history or when no passage
was collected; otherwise the final 5 passages joined with blank lines. -/
def extractTaskContext (msgs : List Val) : Option String :=
  if msgs.isEmpty then none
  else if (contextParts msgs).isEmpty then none
  else some (String.intercalate "\n\n" (lastN 5 (contextParts msgs)))

/-- The file content rendered by `saveContext` (timestamp modelled by the
`Nat` clock value). -/
def saveContext (now : Nat) (context : String) (compactionCount : Nat) : String :=
  "# Compaction Recovery Context\n\n*Auto-saved at: " ++ toString now ++
  "*\n*Compaction #" ++ toString compactionCount ++
  "*\n\n## Recent Activity\n\n" ++ context ++
  "\n\n---\n\n**Note:** This context was automatically saved before memory compaction.\nIf you\x27re reading this, compaction just ran. Review the above to understand\nwhat was happening before context was compressed.\n"

/-- Model of `loadContext`: read the file, or `null` when absent. -/
def loadContext (file : Option String) : Option String := file

/-- Model of `clearContext`: delete the file; absence is not an error. -/
def clearContext (_file : Option String) : Option String := none

/-- The static `RECOVERY_PROMPT` constant (after `.trim()`). -/
def RECOVERY_PROMPT : String :=
  "## ⚠️ COMPACTION RECOVERY\n\nMemory compaction just ran. Your previous context was compressed.\n\n**What to do:**\n1. Check `memory/compaction-context.md` for saved task state\n2. Check `memory/session-context.md` for current task info\n3. If mid-task, review what you were doing and continue\n4. If unclear, ask: \"I think compaction just ran. What were we working on?\"\n\n**Do not** pretend you know what was happening if context is unclear."

/-- The configuration after the defaults applied in `register`:
`minMessages = minMessagesForSnapshot ?? 10` and
`injectRecovery = recoveryPrompt !== false`. -/
structure Config where
  minMessages : Nat
  injectRecovery : Bool
deriving DecidableEq

/-- The default configuration (empty plugin config). -/
def defaultConfig : Config := { minMessages := 10, injectRecovery := true }

/-- Process-wide mutable state (`state` and `needsRecovery` in `register`)
together with the snapshot file slot. `needsRecovery` is a list with set
semantics (no duplicates are ever inserted). -/
structure World where
  compactionJustHappened : Bool
  lastCompactionTime : Nat
  compactionCount : Nat
  savedContext : Option String
  needsRecovery : List String
  file : Option String
deriving DecidableEq

/-- The state at module load: flags cleared, counter zero, empty pending
set, no snapshot file. -/
def initialWorld : World :=
  { compactionJustHappened := false, lastCompactionTime := 0, compactionCount := 0,
    savedContext := none, needsRecovery := [], file := none }

/-- Model of `Set.add` on the pending-session list. -/
def addSession (l : List String) (k : String) : List String :=
  if k ∈ l then l else l ++ [k]

/-- Model of `Set.delete` on the pending-session list. -/
def removeSession (l : List String) (k : String) : List String :=
  l.filter fun a => a != k

/-- The `before_compaction` handler. `messageCount` and `messages` are the
optional event fields (`event.messageCount ?? 0`; `messages` is `some`
exactly when `Array.isArray(event.messages)`); `now` is the clock. -/
def beforeCompaction (cfg : Config) (w : World) (messageCount : Option Nat)
    (messages : Option (List Val)) (now : Nat) : World :=
  if messageCount.getD 0 < cfg.minMessages then w
  else
    let w1 : World :=
      { w with compactionCount := w.compactionCount + 1,
               compactionJustHappened := true,
               lastCompactionTime := now }
    match messages with
    | some msgs =>
        if msgs.isEmpty then w1
        else
          match extractTaskContext msgs with
          | some ctx =>
              { w1 with file := some (saveContext now ctx w1.compactionCount),
                        savedContext := some ctx }
          | none => w1
    | none => w1

/-- The `after_compaction` handler: mark the session as owing recovery. -/
def afterCompaction (w : World) (sessionKey : Option String) : World :=
  { w with needsRecovery := addSession w.needsRecovery (sessionKey.getD "default") }

/-- The `before_agent_start` handler: returns the updated world and the
`prependContext` payload (`none` when the hook returns `undefined`). -/
def beforeAgentStart (cfg : Config) (w : World) (sessionKey : Option String)
    (now : Nat) : World × Option String :=
  let key := sessionKey.getD "default"
  if key ∉ w.needsRecovery ∧
      (60000 < now - w.lastCompactionTime ∨ w.compactionJustHappened = false) then
    (w, none)
  else
    let w1 : World :=
      { w with needsRecovery := removeSession w.needsRecovery key,
               compactionJustHappened := false }
    if cfg.injectRecovery = false then (w1, none)
    else
      let recoveryContent :=
        match loadContext w1.file with
        | some saved =>
            if saved = "" then RECOVERY_PROMPT
            else RECOVERY_PROMPT ++ "\n\n---\n\n**Saved Context:**\n\n" ++ saved
        | none => RECOVERY_PROMPT
      (w1, some recoveryContent)

/-- One lifecycle event delivered by the host, with its clock value. -/
inductive Event where
  | beforeC (messageCount : Option Nat) (messages : Option (List Val)) (now : Nat)
  | afterC (sessionKey : Option String)
  | beforeAS (sessionKey : Option String) (now : Nat)
deriving DecidableEq

/-- Apply one event to the world (dropping the return payload). -/
def step (cfg : Config) (w : World) : Event → World
  | .beforeC mc ms now => beforeCompaction cfg w mc ms now
  | .afterC k => afterCompaction w k
  | .beforeAS k now => (beforeAgentStart cfg w k now).1

/-- Run a trace of events from a world. -/
def run (cfg : Config) (w : World) : List Event → World
  | [] => w
  | e :: es => run cfg (step cfg w e) es

/-- An event is a qualifying compaction when it is a `before_compaction`
whose message count clears the gate. -/
def isQualifying (cfg : Config) : Event → Bool
  | .beforeC mc _ _ => cfg.minMessages ≤ mc.getD 0
  | _ => false

/-- The number of qualifying compactions in a trace. -/
def countQualifying (cfg : Config) (tr : List Event) : Nat :=
  (tr.filter (isQualifying cfg)).length

/-- A 10-message history: one user message followed by five task-indicator
assistant messages, padded with non-object entries. The six collected
passages exceed the keep-last-5 bound, so the user passage is dropped from
the digest. -/
def cexMsgs : List Val :=
  [Val.msg (some "user") (ContentV.str "hello"),
   Val.msg (some "assistant") (ContentV.str "working on 1"),
   Val.msg (some "assistant") (ContentV.str "working on 2"),
   Val.msg (some "assistant") (ContentV.str "working on 3"),
   Val.msg (some "assistant") (ContentV.str "working on 4"),
   Val.msg (some "assistant") (ContentV.str "working on 5"),
   Val.nonObj, Val.nonObj, Val.nonObj, Val.nonObj]

/-- The digest actually saved for `cexMsgs`: only the final five passages. -/
def cexDigest : String :=
  "Assistant: working on 1\n\nAssistant: working on 2\n\nAssistant: working on 3\n\nAssistant: working on 4\n\nAssistant: working on 5"

/-- The scenario history of the specification: a user request, a matching
assistant message (block-structured content), and eight filler entries. -/
def scenarioMsgs : List Val :=
  [Val.msg (some "user") (ContentV.str "Fix the login bug"),
   Val.msg (some "assistant")
     (ContentV.blocks [BlockV.textBlock "I\x27m investigating the login bug now"]),
   Val.nonObj, Val.nonObj, Val.nonObj, Val.nonObj,
   Val.nonObj, Val.nonObj, Val.nonObj, Val.nonObj]

/-! ## Helper lemmas -/

lemma lastN_of_length_le (l : List α) (n : Nat) (h : l.length ≤ n) : lastN n l = l := by
  unfold lastN
  rw [Nat.sub_eq_zero_of_le h, List.drop_zero]

lemma lastN_nil (n : Nat) : lastN n ([] : List α) = [] := by
  unfold lastN
  exact List.drop_nil

lemma length_take (s : String) (n : Nat) : (s.take n).length = min n s.length := by
  rw [String.take_eq]
  exact List.length_take n s.data

lemma truncateTo_length (n : Nat) (s : String) : (truncateTo n s).length ≤ n + 3 := by
  unfold truncateTo
  split
  · rw [String.length_append, length_take]
    have h3 : ("..." : String).length = 3 := by decide
    rw [h3]
    omega
  · next h =>
    omega

lemma mem_addSession (l : List String) (k : String) : k ∈ addSession l k := by
  unfold addSession
  split
  · assumption
  · simp

lemma not_mem_removeSession (l : List String) (k : String) : k ∉ removeSession l k := by
  simp [removeSession, List.mem_filter]

lemma beforeCompaction_skip (cfg : Config) (w : World) (mc : Option Nat)
    (ms : Option (List Val)) (now : Nat) (h : mc.getD 0 < cfg.minMessages) :
    beforeCompaction cfg w mc ms now = w := by
  unfold beforeCompaction
  rw [if_pos h]

lemma beforeAgentStart_not_pending (cfg : Config) (w : World) (k : Option String) (now : Nat)
    (hc : (k.getD "default") ∉ w.needsRecovery ∧
      (60000 < now - w.lastCompactionTime ∨ w.compactionJustHappened = false)) :
    beforeAgentStart cfg w k now = (w, none) := by
  unfold beforeAgentStart
  rw [if_pos hc]

lemma beforeAgentStart_proceed_fst (cfg : Config) (w : World) (k : Option String) (now : Nat)
    (hc : ¬ ((k.getD "default") ∉ w.needsRecovery ∧
      (60000 < now - w.lastCompactionTime ∨ w.compactionJustHappened = false))) :
    (beforeAgentStart cfg w k now).1 =
      { w with needsRecovery := removeSession w.needsRecovery (k.getD "default"),
               compactionJustHappened := false } := by
  unfold beforeAgentStart
  rw [if_neg hc]
  split <;> rfl

lemma beforeAgentStart_proceed_snd (cfg : Config) (w : World) (k : Option String) (now : Nat)
    (hc : ¬ ((k.getD "default") ∉ w.needsRecovery ∧
      (60000 < now - w.lastCompactionTime ∨ w.compactionJustHappened = false)))
    (hinj : cfg.injectRecovery = true) :
    ∃ rest, (beforeAgentStart cfg w k now).2 = some (RECOVERY_PROMPT ++ rest) := by
  unfold beforeAgentStart
  rw [if_neg hc]
  rw [if_neg (by rw [hinj]; exact fun h => nomatch h)]
  cases hf : w.file with
  | none =>
      refine ⟨"", ?_⟩
      simp [loadContext, hf, String.append_empty]
  | some saved =>
      by_cases hs : saved = ""
      · refine ⟨"", ?_⟩
        simp [loadContext, hf, hs, String.append_empty]
      · refine ⟨"\n\n---\n\n**Saved Context:**\n\n" ++ saved, ?_⟩
        simp [loadContext, hf, hs, String.append_assoc]

lemma compactionCount_beforeCompaction_qual (cfg : Config) (w : World) (mc : Option Nat)
    (ms : Option (List Val)) (now : Nat) (h : cfg.minMessages ≤ mc.getD 0) :
    (beforeCompaction cfg w mc ms now).compactionCount = w.compactionCount + 1 := by
  unfold beforeCompaction
  rw [if_neg (Nat.not_lt.mpr h)]
  cases ms with
  | none => rfl
  | some msgs =>
      by_cases he : msgs.isEmpty
      · simp [he]
      · cases hctx : extractTaskContext msgs <;> simp [he, hctx]

lemma compactionCount_beforeAgentStart (cfg : Config) (w : World) (k : Option String)
    (now : Nat) :
    (beforeAgentStart cfg w k now).1.compactionCount = w.compactionCount := by
  by_cases hc : (k.getD "default") ∉ w.needsRecovery ∧
      (60000 < now - w.lastCompactionTime ∨ w.compactionJustHappened = false)
  · rw [beforeAgentStart_not_pending cfg w k now hc]
  · rw [beforeAgentStart_proceed_fst cfg w k now hc]

lemma compactionCount_step (cfg : Config) (w : World) (e : Event) :
    (step cfg w e).compactionCount =
      w.compactionCount + (if isQualifying cfg e = true then 1 else 0) := by
  cases e with
  | beforeC mc ms now =>
      simp only [step, isQualifying, decide_eq_true_eq]
      by_cases h : cfg.minMessages ≤ mc.getD 0
      · rw [if_pos h, compactionCount_beforeCompaction_qual cfg w mc ms now h]
      · rw [if_neg h, beforeCompaction_skip cfg w mc ms now (Nat.lt_of_not_le h)]
        simp
  | afterC k =>
      simp [step, isQualifying, afterCompaction]
  | beforeAS k now =>
      simp [step, isQualifying, compactionCount_beforeAgentStart]

lemma compactionCount_run (cfg : Config) (w : World) (tr : List Event) :
    (run cfg w tr).compactionCount = w.compactionCount + countQualifying cfg tr := by
  induction tr generalizing w with
  | nil => simp [run, countQualifying]
  | cons e es ih =>
      rw [run, ih, compactionCount_step]
      simp only [countQualifying, List.filter_cons]
      by_cases h : isQualifying cfg e = true
      · simp [h]; omega
      · simp [h]

/-! ## Claim theorems -/

/-- Claim C1: with the recovery prompt enabled, a `before_agent_start` for
session key `k` immediately following an `after_compaction` for the same
key returns recovery content (the static prompt, possibly extended with
the saved snapshot), and a second consecutive `before_agent_start` for
that key with no intervening compaction events returns nothing. -/
theorem c1_recover_once_then_nothing (cfg : Config) (w : World) (k : Option String)
    (t1 t2 : Nat) (hinj : cfg.injectRecovery = true) :
    (∃ rest, (beforeAgentStart cfg (afterCompaction w k) k t1).2 =
        some (RECOVERY_PROMPT ++ rest)) ∧
    (beforeAgentStart cfg (beforeAgentStart cfg (afterCompaction w k) k t1).1 k t2).2 =
      none := by
  have hmem : (k.getD "default") ∈ (afterCompaction w k).needsRecovery :=
    mem_addSession _ _
  have hc : ¬ ((k.getD "default") ∉ (afterCompaction w k).needsRecovery ∧
      (60000 < t1 - (afterCompaction w k).lastCompactionTime ∨
        (afterCompaction w k).compactionJustHappened = false)) :=
    fun h => h.1 hmem
  constructor
  · exact beforeAgentStart_proceed_snd cfg (afterCompaction w k) k t1 hc hinj
  · rw [beforeAgentStart_proceed_fst cfg (afterCompaction w k) k t1 hc]
    rw [beforeAgentStart_not_pending]
    exact ⟨not_mem_removeSession _ _, Or.inr rfl⟩

/-- Witness for claim C1 at the default configuration, the initial world
and session key s1. -/
theorem c1_recover_once_then_nothing_witness :
    (defaultConfig.injectRecovery = true) ∧
    ((∃ rest, (beforeAgentStart defaultConfig (afterCompaction initialWorld (some "s1"))
        (some "s1") 0).2 = some (RECOVERY_PROMPT ++ rest)) ∧
      (beforeAgentStart defaultConfig
        (beforeAgentStart defaultConfig (afterCompaction initialWorld (some "s1"))
          (some "s1") 0).1 (some "s1") 5).2 = none) :=
  ⟨rfl, c1_recover_once_then_nothing defaultConfig initialWorld (some "s1") 0 5 rfl⟩

set_option maxRecDepth 8192 in
/-- Claim C2, counterexample to the original statement: `cexMsgs` contains
a user message and a task-indicator-matching assistant message within its
last 20 entries and the compaction qualifies, yet the snapshot written by
`before_compaction` does not contain the user passage, because only the
final 5 collected passages are kept. -/
theorem c2_counterexample :
    (Val.msg (some "user") (ContentV.str "hello") ∈ lastN 20 cexMsgs) ∧
    (Val.msg (some "assistant") (ContentV.str "working on 1") ∈ lastN 20 cexMsgs) ∧
    hasTaskIndicator "working on 1" = true ∧
    defaultConfig.minMessages ≤ (some 10 : Option Nat).getD 0 ∧
    loadContext (beforeCompaction defaultConfig initialWorld (some 10)
        (some cexMsgs) 7).file = some (saveContext 7 cexDigest 1) ∧
    isSubstring "User: hello" (saveContext 7 cexDigest 1) = false := by
  decide

/-- Claim C2 (amended): if the last 20 entries of the history contain a
plain-string user message and a task-indicator-matching assistant
message, and at most 5 passages are collected from them, then after a
qualifying `before_compaction` the loaded snapshot is the rendered digest
containing both passages, with counter equal to the number of qualifying
compactions performed so far. -/
theorem c2_snapshot_contains_passages (cfg : Config) (tr : List Event) (mc : Option Nat)
    (msgs : List Val) (now : Nat) (su ta : String) (ca : ContentV)
    (hq : cfg.minMessages ≤ mc.getD 0)
    (hu : Val.msg (some "user") (ContentV.str su) ∈ lastN 20 msgs)
    (hma : Val.msg (some "assistant") ca ∈ lastN 20 msgs)
    (hext : extractTextContent ca = some ta)
    (hne : ta ≠ "")
    (hind : hasTaskIndicator ta = true)
    (hlen : (contextParts msgs).length ≤ 5) :
    ∃ parts : List String,
      loadContext (beforeCompaction cfg (run cfg initialWorld tr) mc (some msgs) now).file =
        some (saveContext now (String.intercalate "\n\n" parts)
          (countQualifying cfg tr + 1)) ∧
      ("User: " ++ truncateTo 500 su) ∈ parts ∧
      ("Assistant: " ++ truncateTo 300 ta) ∈ parts := by
  have hpu : ("User: " ++ truncateTo 500 su) ∈ contextParts msgs := by
    simp only [contextParts]
    exact List.mem_filterMap.mpr ⟨_, hu, rfl⟩
  have hpa : ("Assistant: " ++ truncateTo 300 ta) ∈ contextParts msgs := by
    simp only [contextParts]
    refine List.mem_filterMap.mpr ⟨_, hma, ?_⟩
    simp [msgPart, hext, hne, hind]
  have hme : msgs ≠ [] := by
    intro h
    rw [h] at hu
    exact absurd hu (by simp [lastN_nil])
  have hpe : contextParts msgs ≠ [] := fun h => by
    rw [h] at hpu
    exact absurd hpu (by simp)
  have hctx : extractTaskContext msgs =
      some (String.intercalate "\n\n" (contextParts msgs)) := by
    unfold extractTaskContext
    rw [if_neg (by simpa [List.isEmpty_iff] using hme)]
    rw [if_neg (by simpa [List.isEmpty_iff] using hpe)]
    rw [lastN_of_length_le _ _ hlen]
  refine ⟨contextParts msgs, ?_, hpu, hpa⟩
  unfold beforeCompaction
  rw [if_neg (Nat.not_lt.mpr hq)]
  simp only []
  rw [if_neg (by simpa [List.isEmpty_iff] using hme), hctx]
  simp only [loadContext, Option.some.injEq]
  rw [compactionCount_run]
  simp [initialWorld]

set_option maxRecDepth 8192 in
/-- Witness for claim C2 (amended) at the scenario history of the
specification, run from the initial world with an empty preceding trace. -/
theorem c2_snapshot_contains_passages_witness :
    (defaultConfig.minMessages ≤ (some 10 : Option Nat).getD 0) ∧
    (Val.msg (some "user") (ContentV.str "Fix the login bug") ∈ lastN 20 scenarioMsgs) ∧
    (Val.msg (some "assistant")
        (ContentV.blocks [BlockV.textBlock "I\x27m investigating the login bug now"]) ∈
      lastN 20 scenarioMsgs) ∧
    (extractTextContent
        (ContentV.blocks [BlockV.textBlock "I\x27m investigating the login bug now"]) =
      some "I\x27m investigating the login bug now") ∧
    ("I\x27m investigating the login bug now" ≠ "") ∧
    (hasTaskIndicator "I\x27m investigating the login bug now" = true) ∧
    ((contextParts scenarioMsgs).length ≤ 5) ∧
    (∃ parts : List String,
      loadContext (beforeCompaction defaultConfig (run defaultConfig initialWorld [])
          (some 10) (some scenarioMsgs) 4).file =
        some (saveContext 4 (String.intercalate "\n\n" parts)
          (countQualifying defaultConfig [] + 1)) ∧
      ("User: " ++ truncateTo 500 "Fix the login bug") ∈ parts ∧
      ("Assistant: " ++ truncateTo 300 "I\x27m investigating the login bug now") ∈ parts) :=
  ⟨by decide, by decide, by decide, by decide, by decide, by decide, by decide,
   c2_snapshot_contains_passages defaultConfig [] (some 10) scenarioMsgs 4
     "Fix the login bug" "I\x27m investigating the login bug now"
     (ContentV.blocks [BlockV.textBlock "I\x27m investigating the login bug now"])
     (by decide) (by decide) (by decide) (by decide) (by decide) (by decide) (by decide)⟩

/-- Claim C3: every passage collected by the summarizer is either a
user-labelled passage whose included text is at most 503 characters
(ellipsis marker included) or an assistant-labelled passage whose
included text is at most 303 characters (ellipsis marker included). -/
theorem c3_truncation_law (msgs : List Val) (p : String) (hp : p ∈ contextParts msgs) :
    (∃ s, p = "User: " ++ s ∧ s.length ≤ 503) ∨
    (∃ s, p = "Assistant: " ++ s ∧ s.length ≤ 303) := by
  simp only [contextParts] at hp
  obtain ⟨m, hm, he⟩ := List.mem_filterMap.mp hp
  cases m with
  | nonObj => exact absurd he (by simp [msgPart])
  | msg role content =>
      simp only [msgPart] at he
      split at he
      · split at he
        · rename_i s
          left
          exact ⟨truncateTo 500 s, (Option.some.inj he).symm, truncateTo_length 500 s⟩
        · exact absurd he (by simp)
      · split at he
        · split at he
          · rename_i t ht
            split at he
            · exact absurd he (by simp)
            · split at he
              · right
                exact ⟨truncateTo 300 t, (Option.some.inj he).symm, truncateTo_length 300 t⟩
              · exact absurd he (by simp)
          · exact absurd he (by simp)
        · exact absurd he (by simp)

/-- Witness for claim C3 at a one-message history. -/
theorem c3_truncation_law_witness :
    ("User: hi" ∈ contextParts [Val.msg (some "user") (ContentV.str "hi")]) ∧
    ((∃ s, "User: hi" = "User: " ++ s ∧ s.length ≤ 503) ∨
      (∃ s, "User: hi" = "Assistant: " ++ s ∧ s.length ≤ 303)) :=
  ⟨by decide,
   c3_truncation_law [Val.msg (some "user") (ContentV.str "hi")] "User: hi" (by decide)⟩

/-- Claim C4: a `before_compaction` whose message count is below the
configured minimum leaves the whole world unchanged: no file write, no
counter increment, no change to the recovery flags or the pending set. -/
theorem c4_subminimum_noop (cfg : Config) (w : World) (mc : Option Nat)
    (ms : Option (List Val)) (now : Nat) (h : mc.getD 0 < cfg.minMessages) :
    beforeCompaction cfg w mc ms now = w :=
  beforeCompaction_skip cfg w mc ms now h

/-- Witness for claim C4: message count 5 against the default gate 10. -/
theorem c4_subminimum_noop_witness :
    ((some 5 : Option Nat).getD 0 < defaultConfig.minMessages) ∧
    beforeCompaction defaultConfig initialWorld (some 5)
      (some [Val.msg (some "user") (ContentV.str "Fix the login bug")]) 3 = initialWorld :=
  ⟨by decide,
   c4_subminimum_noop defaultConfig initialWorld (some 5)
     (some [Val.msg (some "user") (ContentV.str "Fix the login bug")]) 3 (by decide)⟩

/-- Claim C5: a `before_agent_start` for a session key not in the pending
set, occurring more than 60 seconds (60000 ms) after the last qualifying
compaction, produces no recovery content. -/
theorem c5_stale_no_recovery (cfg : Config) (w : World) (k : Option String) (now : Nat)
    (hmem : (k.getD "default") ∉ w.needsRecovery)
    (ht : 60000 < now - w.lastCompactionTime) :
    (beforeAgentStart cfg w k now).2 = none := by
  rw [beforeAgentStart_not_pending cfg w k now ⟨hmem, Or.inl ht⟩]

/-- Witness for claim C5: the compaction flag is still set, but 60001 ms
have elapsed and the key is not pending. -/
theorem c5_stale_no_recovery_witness :
    (("zz" : String) ∉ (World.mk true 0 1 none [] none).needsRecovery) ∧
    (60000 < 60001 - (World.mk true 0 1 none [] none).lastCompactionTime) ∧
    (beforeAgentStart defaultConfig (World.mk true 0 1 none [] none) (some "zz") 60001).2 =
      none :=
  ⟨by decide, by decide,
   c5_stale_no_recovery defaultConfig (World.mk true 0 1 none [] none) (some "zz") 60001
     (by decide) (by decide)⟩

/-- Claim C6: on a proceeding `before_agent_start` transition (pending
session, or time-boxed fallback) with the recovery prompt disabled, the
pending entry and the compaction flag are still cleared but the hook
returns nothing. -/
theorem c6_consume_without_inject (cfg : Config) (w : World) (k : Option String) (now : Nat)
    (hoff : cfg.injectRecovery = false)
    (hpro : (k.getD "default") ∈ w.needsRecovery ∨
      (w.compactionJustHappened = true ∧ now - w.lastCompactionTime ≤ 60000)) :
    ((k.getD "default") ∉ (beforeAgentStart cfg w k now).1.needsRecovery) ∧
    (beforeAgentStart cfg w k now).1.compactionJustHappened = false ∧
    (beforeAgentStart cfg w k now).2 = none := by
  have hc : ¬ ((k.getD "default") ∉ w.needsRecovery ∧
      (60000 < now - w.lastCompactionTime ∨ w.compactionJustHappened = false)) := by
    rintro ⟨hnm, hor⟩
    rcases hpro with hmem | ⟨hjh, hle⟩
    · exact hnm hmem
    · rcases hor with hlt | hjf
      · omega
      · rw [hjh] at hjf
        exact nomatch hjf
  refine ⟨?_, ?_, ?_⟩
  · rw [beforeAgentStart_proceed_fst cfg w k now hc]
    exact not_mem_removeSession _ _
  · rw [beforeAgentStart_proceed_fst cfg w k now hc]
  · unfold beforeAgentStart
    rw [if_neg hc]
    simp [hoff]

/-- Witness for claim C6: pending session s2, recovery prompt disabled. -/
theorem c6_consume_without_inject_witness :
    ((Config.mk 10 false).injectRecovery = false) ∧
    (("s2" : String) ∈ (World.mk false 0 0 none ["s2"] none).needsRecovery ∨
      ((World.mk false 0 0 none ["s2"] none).compactionJustHappened = true ∧
        0 - (World.mk false 0 0 none ["s2"] none).lastCompactionTime ≤ 60000)) ∧
    ((("s2" : String) ∉
        (beforeAgentStart (Config.mk 10 false) (World.mk false 0 0 none ["s2"] none)
          (some "s2") 0).1.needsRecovery) ∧
      (beforeAgentStart (Config.mk 10 false) (World.mk false 0 0 none ["s2"] none)
        (some "s2") 0).1.compactionJustHappened = false ∧
      (beforeAgentStart (Config.mk 10 false) (World.mk false 0 0 none ["s2"] none)
        (some "s2") 0).2 = none) :=
  ⟨rfl, Or.inl (by decide),
   c6_consume_without_inject (Config.mk 10 false) (World.mk false 0 0 none ["s2"] none)
     (some "s2") 0 rfl (Or.inl (by decide))⟩

/-- Claim C7, counterexample to the original statement: a sequence
containing exactly one text block with an empty payload yields absent, not
the joined payloads (the empty string), because of the falsy-join check. -/
theorem c7_counterexample :
    extractTextContent (ContentV.blocks [BlockV.textBlock ""]) = none ∧
    extractTextContent (ContentV.blocks [BlockV.textBlock ""]) ≠
      some (String.intercalate "\n" (textPayloads [BlockV.textBlock ""])) := by
  decide

/-- Claim C7 (amended): for any block sequence whose text-block payloads
join to a non-empty string, the extractor returns exactly that join (the
payloads of the text-tagged blocks, newline-separated, in order). -/
theorem c7_joined_text_blocks (bs : List BlockV)
    (h : String.intercalate "\n" (textPayloads bs) ≠ "") :
    extractTextContent (ContentV.blocks bs) =
      some (String.intercalate "\n" (textPayloads bs)) := by
  simp only [extractTextContent]
  rw [if_neg h]

/-- Witness for claim C7 (amended) at a mixed block sequence. -/
theorem c7_joined_text_blocks_witness :
    (String.intercalate "\n"
        (textPayloads [BlockV.textBlock "a", BlockV.otherBlock, BlockV.textBlock "b"]) ≠ "") ∧
    extractTextContent
        (ContentV.blocks [BlockV.textBlock "a", BlockV.otherBlock, BlockV.textBlock "b"]) =
      some (String.intercalate "\n"
        (textPayloads [BlockV.textBlock "a", BlockV.otherBlock, BlockV.textBlock "b"])) :=
  ⟨by decide,
   c7_joined_text_blocks [BlockV.textBlock "a", BlockV.otherBlock, BlockV.textBlock "b"]
     (by decide)⟩

/-- Claim C8: clearing is idempotent (a second clear is a no-op on any
file state, absence included) and a load after a clear returns absent. -/
theorem c8_clear_idempotent (file : Option String) :
    clearContext (clearContext file) = clearContext file ∧
    loadContext (clearContext file) = none := by
  simp [clearContext, loadContext]

/-- Claim C9: a user message whose content is a block sequence contributes
nothing to the digest, whatever text blocks the sequence contains, and the
same holds for any other non-string content shape; only plain-string user
messages are ever included. -/
theorem c9_user_block_content_excluded (bs : List BlockV) :
    msgPart (Val.msg (some "user") (ContentV.blocks bs)) = none ∧
    msgPart (Val.msg (some "user") ContentV.other) = none :=
  ⟨rfl, rfl⟩

/-- Claim C10: a `before_compaction` event with no `messageCount` field is
treated as count 0, so with any positive configured minimum the handler
changes nothing, regardless of the `messages` array. -/
theorem c10_missing_count_noop (cfg : Config) (w : World) (ms : Option (List Val))
    (now : Nat) (h : 0 < cfg.minMessages) :
    beforeCompaction cfg w none ms now = w :=
  beforeCompaction_skip cfg w none ms now h

/-- Witness for claim C10: an absent count with a 12-message array. -/
theorem c10_missing_count_noop_witness :
    (0 < defaultConfig.minMessages) ∧
    beforeCompaction defaultConfig initialWorld none
      (some (List.replicate 12 (Val.msg (some "user") (ContentV.str "x")))) 0 =
      initialWorld :=
  ⟨by decide,
   c10_missing_count_noop defaultConfig initialWorld
     (some (List.replicate 12 (Val.msg (some "user") (ContentV.str "x")))) 0 (by decide)⟩

end CompactionGuard
